import Mathlib

/-!
# PerfectPong — verification of the specification against the code

Shallow embedding of `src/PerfectPong.py`. Positions, sizes and
velocities are modelled as rationals (Python floats carrying exact
small values in every scenario considered); the pygame clock
(`pygame.time.get_ticks`) is modelled by passing the value returned by
each call as an explicit natural-number argument; the keyboard state
(`pygame.key.get_pressed()`) is a function from key codes to `Bool`;
the event queue is an explicit list of events.
-/

/-! ## Configuration management (`update_config`, `load_config`) -/

/-- JSON-like values as stored in `config.json`: numbers, booleans and
objects (association lists in insertion order, mirroring Python dicts). -/
inductive JVal where
  | num (n : Int)
  | bool (b : Bool)
  | dict (entries : List (String × JVal))

/-- Python `d.get(key)` on an association list (first match). -/
def lookupJ : List (String × JVal) → String → Option JVal
  | [], _ => none
  | (k, v) :: rest, key => if k = key then some v else lookupJ rest key

/-- Python `d[key] = v` on an existing key: replace the first binding in place. -/
def setJ : List (String × JVal) → String → JVal → List (String × JVal)
  | [], _, _ => []
  | (k, v) :: rest, key, nv =>
      if k = key then (k, nv) :: rest else (k, v) :: setJ rest key nv

/-- The loop body of `update_config`: walk the default dict's entries in
order; a key missing from `loaded` is inserted (Python dict insertion
appends), and a key present in both whose two values are dicts is merged
recursively; any other present key keeps its loaded value. -/
def updateEntries : List (String × JVal) → List (String × JVal) → List (String × JVal)
  | [], loaded => loaded
  | (k, v) :: rest, loaded =>
      match lookupJ loaded k with
      | none => updateEntries rest (loaded ++ [(k, v)])
      | some old =>
          match v, old with
          | JVal.dict dv, JVal.dict dl =>
              updateEntries rest (setJ loaded k (JVal.dict (updateEntries dv dl)))
          | _, _ => updateEntries rest loaded
termination_by ds _ => sizeOf ds
decreasing_by all_goals (simp_wf; try omega)

/-- Function `update_config(default, loaded)` from the source, on JSON values. -/
def update_config : JVal → JVal → JVal
  | JVal.dict ds, JVal.dict ls => JVal.dict (updateEntries ds ls)
  | _, l => l

/-- The entries of a JSON object (empty for non-objects). -/
def JVal.entries : JVal → List (String × JVal)
  | JVal.dict es => es
  | _ => []

/-- pygame key codes used by the source (SDL2 values). -/
def K_a : Nat := 97
def K_d : Nat := 100
def K_LEFT : Nat := 1073741904
def K_RIGHT : Nat := 1073741903
def K_UP : Nat := 1073741906
def K_DOWN : Nat := 1073741905
def K_ESCAPE : Nat := 27

/-- Constant `DEFAULT_CONFIG` from the source, in insertion order. -/
def DEFAULT_CONFIG : List (String × JVal) :=
  [("game_width", JVal.num 800),
   ("game_height", JVal.num 600),
   ("paddle_width", JVal.num 100),
   ("paddle_height", JVal.num 20),
   ("ball_radius", JVal.num 10),
   ("fps", JVal.num 60),
   ("ai_enabled", JVal.bool true),
   ("ai_difficulty", JVal.num 5),
   ("max_score", JVal.num 10),
   ("controls", JVal.dict
     [("player1", JVal.dict [("left", JVal.num 97), ("right", JVal.num 100)]),
      ("player2", JVal.dict [("left", JVal.num 1073741904), ("right", JVal.num 1073741903)])])]

/-- State of `config.json` when `load_config` runs: absent, present but
unparsable, or parsed to a JSON object. -/
inductive FileState where
  | missing
  | malformed
  | parsed (entries : List (String × JVal))

/-- Function `load_config()` from the source. Returns the configuration it
produces together with whether it wrote `config.json`: a missing file
raises `FileNotFoundError`, whose handler writes the defaults out; any
other exception (in particular a JSON parse failure) is caught by the
generic handler, which only logs and returns the defaults. -/
def load_config : FileState → JVal × Bool
  | FileState.missing => (JVal.dict DEFAULT_CONFIG, true)
  | FileState.malformed => (JVal.dict DEFAULT_CONFIG, false)
  | FileState.parsed ls =>
      (update_config (JVal.dict DEFAULT_CONFIG) (JVal.dict ls), false)

/-! ## Entity model (`Paddle`, `Ball`) -/

/-- The configuration values the entity updates read from the global
`CONFIG` dict, as rationals. -/
structure GameConfig where
  game_width : ℚ
  game_height : ℚ
  paddle_width : ℚ
  paddle_height : ℚ
  ball_radius : ℚ
  ai_difficulty : ℚ
deriving Repr, DecidableEq

/-- The default configuration's geometry. -/
def defaultGameConfig : GameConfig :=
  { game_width := 800, game_height := 600, paddle_width := 100,
    paddle_height := 20, ball_radius := 10, ai_difficulty := 5 }

structure Paddle where
  x : ℚ
  y : ℚ
  width : ℚ
  height : ℚ
  speed : ℚ
  controls : Option Nat × Option Nat
  ai : Bool
deriving Repr, DecidableEq

structure Ball where
  x : ℚ
  y : ℚ
  radius : ℚ
  velocity_x : ℚ
  velocity_y : ℚ
deriving Repr, DecidableEq

/-- Constructor `Paddle.__init__`: width, height from `CONFIG`; speed hardcoded 10. -/
def Paddle.make (cfg : GameConfig) (x y : ℚ) (controls : Option Nat × Option Nat)
    (ai : Bool) : Paddle :=
  { x := x, y := y, width := cfg.paddle_width, height := cfg.paddle_height,
    speed := 10, controls := controls, ai := ai }

/-- Test `self.controls[i] is not None and keys[self.controls[i]]`. -/
def keyDown (keys : Nat → Bool) : Option Nat → Bool
  | none => false
  | some k => keys k

/-- Method `Paddle.update(keys, ball)` from the source. The AI branch runs only
when `self.ai` is true and `ball` is a (truthy) object; otherwise the
manual branch checks the left binding then the right binding, each with
its boundary pre-condition, with no clamping afterwards. -/
def Paddle.update (cfg : GameConfig) (p : Paddle) (keys : Nat → Bool)
    (ball : Option Ball) : Paddle :=
  match p.ai, ball with
  | true, some b =>
      let target := b.x - p.width / 2
      let diff := target - p.x
      let move := p.speed * (cfg.ai_difficulty / 10)
      if diff > move then { p with x := p.x + move }
      else if diff < -move then { p with x := p.x - move }
      else { p with x := target }
  | _, _ =>
      let p1 :=
        if keyDown keys p.controls.1 = true ∧ p.x > 0
        then { p with x := p.x - p.speed } else p
      if keyDown keys p1.controls.2 = true ∧ p1.x + p1.width < cfg.game_width
      then { p1 with x := p1.x + p1.speed } else p1

/-- Constructor `Ball.__init__(x, y, radius)`: velocity starts at (4, 4). -/
def Ball.make (x y radius : ℚ) : Ball :=
  { x := x, y := y, radius := radius, velocity_x := 4, velocity_y := 4 }

/-- Method `Ball.reset()`: recentre and re-sign each velocity component from
the parity of a fresh `pygame.time.get_ticks()` reading; `t1` is the
value returned by the call in the `velocity_x` line and `t2` the value
returned by the call in the `velocity_y` line. -/
def Ball.reset (cfg : GameConfig) (b : Ball) (t1 t2 : Nat) : Ball :=
  { b with
    x := cfg.game_width / 2
    y := cfg.game_height / 2
    velocity_x := 4 * (if t1 % 2 = 0 then -1 else 1)
    velocity_y := 4 * (if t2 % 2 = 0 then -1 else 1) }

/-- The position integration step `x += vx; y += vy`. -/
def Ball.integrate (b : Ball) : Ball :=
  { b with x := b.x + b.velocity_x, y := b.y + b.velocity_y }

/-- The source's ball/paddle collision test:
`self.y + self.radius > paddle.y and self.y - self.radius < paddle.y +
paddle.height and paddle.x < self.x < paddle.x + paddle.width`. -/
def paddleHit (b : Ball) (p : Paddle) : Prop :=
  b.y + b.radius > p.y ∧ b.y - b.radius < p.y + p.height ∧
  p.x < b.x ∧ b.x < p.x + p.width

instance (b : Ball) (p : Paddle) : Decidable (paddleHit b p) :=
  inferInstanceAs (Decidable (_ ∧ _ ∧ _ ∧ _))

/-- One iteration of the paddle-collision loop: flip `velocity_y` on a hit. -/
def paddleBounce (b : Ball) (p : Paddle) : Ball :=
  if paddleHit b p then { b with velocity_y := -b.velocity_y } else b

/-- Whether the integrated ball has crossed the top or bottom scoring
boundary, exactly as `Ball.update` tests it. -/
def scoringCross (cfg : GameConfig) (b : Ball) : Prop :=
  b.y - b.radius < 0 ∨ b.y + b.radius > cfg.game_height

instance (cfg : GameConfig) (b : Ball) : Decidable (scoringCross cfg b) :=
  inferInstanceAs (Decidable (_ ∨ _))

/-- Method `Ball.update(paddles, scores)` from the source: integrate, reflect
off the side walls, score-and-reset on a top (player 2 point) or bottom
(player 1 point) crossing, then run the paddle-collision loop over all
paddles. Scores are the pair (player1, player2); `t1 t2` are the clock
readings consumed by `reset` if it runs. -/
def Ball.update (cfg : GameConfig) (b : Ball) (paddles : List Paddle)
    (scores : Nat × Nat) (t1 t2 : Nat) : Ball × (Nat × Nat) :=
  let b1 := b.integrate
  let b2 := if b1.x - b1.radius < 0 ∨ b1.x + b1.radius > cfg.game_width
            then { b1 with velocity_x := -b1.velocity_x } else b1
  let bs : Ball × (Nat × Nat) :=
    if b2.y - b2.radius < 0 then
      (Ball.reset cfg b2 t1 t2, (scores.1, scores.2 + 1))
    else if b2.y + b2.radius > cfg.game_height then
      (Ball.reset cfg b2 t1 t2, (scores.1 + 1, scores.2))
    else (b2, scores)
  (paddles.foldl paddleBounce bs.1, bs.2)

/-- The specification's collision test, stated in its own words:
axis-aligned bounding-box overlap between the ball's bounding square
(side `2 × radius` centred at the ball position) and the paddle's
rectangle. Kept separate from `paddleHit` so the two can be compared. -/
def specAabbOverlap (b : Ball) (p : Paddle) : Prop :=
  b.x + b.radius > p.x ∧ b.x - b.radius < p.x + p.width ∧
  b.y + b.radius > p.y ∧ b.y - b.radius < p.y + p.height

instance (b : Ball) (p : Paddle) : Decidable (specAabbOverlap b p) :=
  inferInstanceAs (Decidable (_ ∧ _ ∧ _ ∧ _))

/-! ## Options menu (`OptionsMenu.adjust`) -/

/-- The events `OptionsMenu.adjust` reacts to: a window-close event or a
key-down event with a key code. -/
inductive MenuEvent where
  | quit
  | keydown (k : Nat)

/-- The menu's mutable state: the two entries of `self.options` (in
`option_keys` order: index 0 is "AI Difficulty", index 1 is "Max
Score"), `self.selected`, and the local `changed` flag. -/
structure OptionsState where
  aiDifficulty : Int
  maxScore : Int
  selected : Int
  changed : Bool
deriving Repr, DecidableEq

/-- The global state `OptionsMenu.adjust` can commit to: the
`ai_difficulty` and `max_score` entries of `CONFIG`. -/
structure ConfigState where
  ai_difficulty : Int
  max_score : Int
deriving Repr, DecidableEq

/-- How `OptionsMenu.adjust` returned: on a `QUIT` event (returning the
`changed` flag, committing nothing) or on an escape key-down (committing
the menu values to `CONFIG`, writing `config.json`, returning `True`).
Each outcome records the return value, the menu state at exit, the
`CONFIG` state at exit and whether `config.json` was written. -/
inductive AdjustOutcome where
  | viaQuit (ret : Bool) (menu : OptionsState) (cfg : ConfigState) (fileWritten : Bool)
  | viaEscape (ret : Bool) (menu : OptionsState) (cfg : ConfigState) (fileWritten : Bool)

/-- The effect of one non-exiting key-down on the menu state: up/down
move the selection modulo the number of options (Python `%`, i.e.
`Int.emod`); left/right decrement/increment the selected entry inside
its guard (`> 1` to go down; `< 10` for AI difficulty and `< 20` for max
score to go up), setting `changed`; every other key is ignored. -/
def adjustStep (m : OptionsState) (k : Nat) : OptionsState :=
  if k = K_UP then { m with selected := (m.selected - 1).emod 2 }
  else if k = K_DOWN then { m with selected := (m.selected + 1).emod 2 }
  else if k = K_LEFT then
    (if m.selected = 0 then
      (if m.aiDifficulty > 1 then
        { m with aiDifficulty := m.aiDifficulty - 1, changed := true } else m)
     else
      (if m.maxScore > 1 then
        { m with maxScore := m.maxScore - 1, changed := true } else m))
  else if k = K_RIGHT then
    (if m.selected = 0 then
      (if m.aiDifficulty < 10 then
        { m with aiDifficulty := m.aiDifficulty + 1, changed := true } else m)
     else
      (if m.maxScore < 20 then
        { m with maxScore := m.maxScore + 1, changed := true } else m))
  else m

/-- Method `OptionsMenu.adjust` over an explicit event stream: process events
in order; a `QUIT` event returns `changed` immediately with `CONFIG`
untouched and no file write; an escape key-down copies the menu values
into `CONFIG`, writes `config.json` and returns `True`; any other event
updates the menu state and continues. `none` means the stream ran out
with the loop still waiting (the real loop would keep polling). -/
def OptionsMenu.adjust : List MenuEvent → OptionsState → ConfigState → Option AdjustOutcome
  | [], _, _ => none
  | MenuEvent.quit :: _, m, cfg => some (AdjustOutcome.viaQuit m.changed m cfg false)
  | MenuEvent.keydown k :: rest, m, cfg =>
      if k = K_ESCAPE then
        some (AdjustOutcome.viaEscape true m
          { ai_difficulty := m.aiDifficulty, max_score := m.maxScore } true)
      else OptionsMenu.adjust rest (adjustStep m k) cfg

/-! ## Helper lemmas -/

theorem paddleBounce_x (b : Ball) (p : Paddle) : (paddleBounce b p).x = b.x := by
  unfold paddleBounce; split <;> rfl

theorem paddleBounce_y (b : Ball) (p : Paddle) : (paddleBounce b p).y = b.y := by
  unfold paddleBounce; split <;> rfl

theorem foldl_paddleBounce_x (ps : List Paddle) (b : Ball) :
    (ps.foldl paddleBounce b).x = b.x := by
  induction ps generalizing b with
  | nil => rfl
  | cons p rest ih => rw [List.foldl_cons, ih, paddleBounce_x]

theorem foldl_paddleBounce_y (ps : List Paddle) (b : Ball) :
    (ps.foldl paddleBounce b).y = b.y := by
  induction ps generalizing b with
  | nil => rfl
  | cons p rest ih => rw [List.foldl_cons, ih, paddleBounce_y]

/-! ## Claim theorems -/

/-- C5: `Ball.reset` always recentres the ball at
`(arena_width/2, arena_height/2)`; each velocity component ends up in
`{+4, −4}` (the speed magnitude of the ball); the sign of `velocity_x`
depends only on the clock reading of its own line and the sign of
`velocity_y` only on that of its line; and every one of the four sign
pairs is realizable by some pair of clock readings. -/
theorem ball_reset_center_and_independent_signs :
    (∀ (cfg : GameConfig) (b : Ball) (t1 t2 : Nat),
      (Ball.reset cfg b t1 t2).x = cfg.game_width / 2 ∧
      (Ball.reset cfg b t1 t2).y = cfg.game_height / 2 ∧
      ((Ball.reset cfg b t1 t2).velocity_x = 4 ∨ (Ball.reset cfg b t1 t2).velocity_x = -4) ∧
      ((Ball.reset cfg b t1 t2).velocity_y = 4 ∨ (Ball.reset cfg b t1 t2).velocity_y = -4) ∧
      (∀ t2b, (Ball.reset cfg b t1 t2).velocity_x = (Ball.reset cfg b t1 t2b).velocity_x) ∧
      (∀ t1b, (Ball.reset cfg b t1 t2).velocity_y = (Ball.reset cfg b t1b t2).velocity_y)) ∧
    (∀ sx sy : Bool, ∃ t1 t2 : Nat, ∀ (cfg : GameConfig) (b : Ball),
      (Ball.reset cfg b t1 t2).velocity_x = (if sx then 4 else -4) ∧
      (Ball.reset cfg b t1 t2).velocity_y = (if sy then 4 else -4)) := by
  constructor
  · intro cfg b t1 t2
    refine ⟨rfl, rfl, ?_, ?_, fun _ => rfl, fun _ => rfl⟩ <;>
      simp only [Ball.reset] <;> split <;> norm_num
  · intro sx sy
    refine ⟨if sx then 1 else 0, if sy then 1 else 0, fun cfg b => ?_⟩
    simp only [Ball.reset]
    cases sx <;> cases sy <;> norm_num

/-- C6, scenario A: a ball at `(395, 5)` with radius 10 moving with
`vy = −4` (any `vx`) in the default 800×600 arena: one `Ball.update`
crosses the top boundary, adds exactly one point to player 2, and
leaves the ball at the arena centre `(400, 300)`, whatever the paddles,
prior scores and clock readings are. -/
theorem ball_update_scenarioA (vx : ℚ) (ps : List Paddle) (s : Nat × Nat) (t1 t2 : Nat) :
    (Ball.update defaultGameConfig (Ball.mk 395 5 10 vx (-4)) ps s t1 t2).1.x = 400 ∧
    (Ball.update defaultGameConfig (Ball.mk 395 5 10 vx (-4)) ps s t1 t2).1.y = 300 ∧
    (Ball.update defaultGameConfig (Ball.mk 395 5 10 vx (-4)) ps s t1 t2).2 = (s.1, s.2 + 1) := by
  simp only [Ball.update, Ball.integrate, Ball.reset, foldl_paddleBounce_x,
    foldl_paddleBounce_y, defaultGameConfig]
  simp only [apply_ite Ball.y, apply_ite Ball.radius, ite_self]
  norm_num

/-- C7: for every AI paddle with a ball present, `Paddle.update`
follows the proportional-control law (`target = ball.x − width/2`,
`diff = target − x`, `move = speed × difficulty / 10`; add `+move` when
`diff > move`, add `−move` when `diff < −move`, otherwise snap to
`target`); in particular an AI paddle at `x = 300` with width 100,
speed 10 and difficulty 10 tracking a ball at `x = 500` moves to
exactly `x = 310`. -/
theorem paddle_update_ai_proportional_law :
    (∀ (cfg : GameConfig) (keys : Nat → Bool) (b : Ball) (x y w h sp : ℚ)
       (c : Option Nat × Option Nat),
      (Paddle.update cfg (Paddle.mk x y w h sp c true) keys (some b)).x =
        (if b.x - w / 2 - x > sp * (cfg.ai_difficulty / 10) then
          x + sp * (cfg.ai_difficulty / 10)
        else if b.x - w / 2 - x < -(sp * (cfg.ai_difficulty / 10)) then
          x - sp * (cfg.ai_difficulty / 10)
        else b.x - w / 2)) ∧
    (∀ keys : Nat → Bool,
      (Paddle.update { defaultGameConfig with ai_difficulty := 10 }
        (Paddle.mk 300 20 100 20 10 (none, none) true) keys
        (some (Ball.mk 500 300 10 4 4))).x = 310) := by
  constructor
  · intro cfg keys b x y w h sp c
    simp only [Paddle.update, apply_ite Paddle.x]
  · intro keys
    simp only [Paddle.update, apply_ite Paddle.x]
    norm_num

/-- C8, scenario B: a human paddle at `x = 350` with width 100 and
speed 10 in the default 800-wide arena, with both bound keys held (the
left binding checked first), ends one `Paddle.update` with net position
change 0: the left branch moves it to 340, then the right branch's
pre-condition (`340 + 100 < 800`) still holds and moves it back to 350. -/
theorem paddle_update_scenarioB (y h : ℚ) (l r : Nat) :
    (Paddle.update defaultGameConfig (Paddle.mk 350 y 100 h 10 (some l, some r) false)
      (fun _ => true) none).x = 350 := by
  simp only [Paddle.update, keyDown, defaultGameConfig]
  norm_num

/-- The AI paddle as `PongGame.init_game` constructs it in single-player
mode: centred horizontally, `y = 20`, control bindings `(None, None)`,
`ai=True`. -/
def singleModeAIPaddle (cfg : GameConfig) : Paddle :=
  Paddle.make cfg (cfg.game_width / 2 - cfg.paddle_width / 2) 20 (none, none) true

/-- C9: calling `Paddle.update` on the single-player AI paddle with no
ball leaves the paddle unchanged for every keyboard state: the AI
branch needs a truthy ball, and both manual-control checks
short-circuit on the `None` bindings. -/
theorem paddle_update_ai_without_ball_idle (cfg : GameConfig) (keys : Nat → Bool) :
    Paddle.update cfg (singleModeAIPaddle cfg) keys none = singleModeAIPaddle cfg := by
  simp [Paddle.update, singleModeAIPaddle, Paddle.make, keyDown]

/-- C1 counterexample: a human paddle at `x = 5` (inside the arena
bounds) with width 100 and speed 10, with only its left key held, ends
`Paddle.update` at `x = −5`: the result is NOT clamped to
`0 ≤ x ≤ arena_width − width`. -/
theorem paddle_update_clamp_counterexample :
    ¬ (0 ≤ (Paddle.update defaultGameConfig
        (Paddle.mk 5 560 100 20 10 (some 0, some 1) false) (fun k => k == 0) none).x) := by
  simp only [Paddle.update, keyDown, defaultGameConfig]
  norm_num

/-- C1 amended: `Paddle.update` performs no clamping; for a paddle
taking the manual branch (here: no ball passed, covering both non-AI
paddles and the AI paddle without a ball) that starts inside the arena
bounds, the guards `x > 0` (left) and `x + width < arena_width` (right)
only pre-check before moving, so the result can overshoot each bound by
strictly less than one speed step: `−speed < x` and
`x + width < arena_width + speed`. -/
theorem paddle_update_manual_overshoot_bound (cfg : GameConfig) (p : Paddle)
    (keys : Nat → Bool) (h0 : 0 ≤ p.x) (h1 : p.x + p.width ≤ cfg.game_width)
    (hs : 0 < p.speed) :
    -p.speed < (Paddle.update cfg p keys none).x ∧
    (Paddle.update cfg p keys none).x + p.width < cfg.game_width + p.speed := by
  obtain ⟨px, py, pw, ph, psp, pc, pai⟩ := p
  simp only at h0 h1 hs
  cases pai <;>
    (simp only [Paddle.update]
     split_ifs <;> constructor <;> (try simp_all) <;> linarith)

/-- Witness for `paddle_update_manual_overshoot_bound` at the
counterexample input: the paddle starting at `x = 5` ends at `x = −5`,
within one speed step of the bound. -/
theorem paddle_update_manual_overshoot_bound_witness :
    (0 ≤ (Paddle.mk 5 560 100 20 10 (some 0, some 1) false).x) ∧
    ((Paddle.mk 5 560 100 20 10 (some 0, some 1) false).x +
        (Paddle.mk 5 560 100 20 10 (some 0, some 1) false).width ≤
      defaultGameConfig.game_width) ∧
    (0 < (Paddle.mk 5 560 100 20 10 (some 0, some 1) false).speed) ∧
    (-(Paddle.mk 5 560 100 20 10 (some 0, some 1) false).speed <
      (Paddle.update defaultGameConfig (Paddle.mk 5 560 100 20 10 (some 0, some 1) false)
        (fun k => k == 0) none).x ∧
    (Paddle.update defaultGameConfig (Paddle.mk 5 560 100 20 10 (some 0, some 1) false)
        (fun k => k == 0) none).x + (Paddle.mk 5 560 100 20 10 (some 0, some 1) false).width <
      defaultGameConfig.game_width + (Paddle.mk 5 560 100 20 10 (some 0, some 1) false).speed) :=
  ⟨by norm_num, by norm_num [defaultGameConfig], by norm_num,
   paddle_update_manual_overshoot_bound defaultGameConfig
     (Paddle.mk 5 560 100 20 10 (some 0, some 1) false) (fun k => k == 0)
     (by norm_num) (by norm_num [defaultGameConfig]) (by norm_num)⟩

/-- C3 counterexample: a ball integrating to `(95, 565)` with radius 10
against a paddle at `(100, 560)` of size 100×20: the ball's bounding
square `[85, 105] × [555, 575]` overlaps the paddle's rectangle
`[100, 200] × [560, 580]`, yet `Ball.update` does not negate `vy`
(it stays 4), because the code requires the ball's CENTRE `x` to lie
strictly inside the paddle's horizontal extent, not the bounding square
to overlap it. -/
theorem ball_paddle_aabb_counterexample :
    ¬ (((Ball.update defaultGameConfig (Ball.mk 91 561 10 4 4)
          [Paddle.mk 100 560 100 20 10 (none, none) false] (0, 0) 0 0).1.velocity_y
        = -(Ball.mk 91 561 10 4 4).velocity_y) ↔
       specAabbOverlap (Ball.integrate (Ball.mk 91 561 10 4 4))
         (Paddle.mk 100 560 100 20 10 (none, none) false)) := by
  simp only [Ball.update, Ball.integrate, Ball.reset, specAabbOverlap, paddleBounce,
    paddleHit, List.foldl, defaultGameConfig]
  norm_num

/-- C3 amended: on a tick that crosses no scoring boundary (so no reset
re-randomizes `vy`), `Ball.update` against a single paddle negates `vy`
exactly when the code's test holds at the integrated ball position:
vertical overlap of the ball's bounding square with the paddle's
rectangle AND the ball's centre strictly inside the paddle's horizontal
extent (`paddle.x < x < paddle.x + width`) — not axis-aligned
bounding-box overlap of the bounding square. -/
theorem ball_update_bounce_characterization (cfg : GameConfig) (b : Ball) (p : Paddle)
    (s : Nat × Nat) (t1 t2 : Nat)
    (htop : ¬ (b.integrate.y - b.integrate.radius < 0))
    (hbot : ¬ (b.integrate.y + b.integrate.radius > cfg.game_height)) :
    (Ball.update cfg b [p] s t1 t2).1.velocity_y =
      (if paddleHit b.integrate p then -b.velocity_y else b.velocity_y) := by
  simp only [Ball.integrate] at htop hbot
  simp only [Ball.update, Ball.integrate, Ball.reset, List.foldl, paddleBounce, paddleHit]
  split_ifs <;> simp_all

/-- Witness for `ball_update_bounce_characterization`: a ball
integrating to `(399, 304)` (no boundary crossing) overlapping a paddle
at `(350, 310)` has its `vy` negated from 4 to −4. -/
theorem ball_update_bounce_characterization_witness :
    ¬ ((Ball.mk 395 300 10 4 4).integrate.y - (Ball.mk 395 300 10 4 4).integrate.radius < 0) ∧
    ¬ ((Ball.mk 395 300 10 4 4).integrate.y + (Ball.mk 395 300 10 4 4).integrate.radius >
        defaultGameConfig.game_height) ∧
    (Ball.update defaultGameConfig (Ball.mk 395 300 10 4 4)
        [Paddle.mk 350 310 100 20 10 (none, none) false] (0, 0) 0 0).1.velocity_y =
      (if paddleHit (Ball.mk 395 300 10 4 4).integrate
          (Paddle.mk 350 310 100 20 10 (none, none) false) then
        -(Ball.mk 395 300 10 4 4).velocity_y
      else (Ball.mk 395 300 10 4 4).velocity_y) :=
  ⟨by norm_num [Ball.integrate], by norm_num [Ball.integrate, defaultGameConfig],
   ball_update_bounce_characterization defaultGameConfig (Ball.mk 395 300 10 4 4)
     (Paddle.mk 350 310 100 20 10 (none, none) false) (0, 0) 0 0
     (by norm_num [Ball.integrate]) (by norm_num [Ball.integrate, defaultGameConfig])⟩

/-- C2: in every call to `Ball.update`, if the integrated ball crosses
the top or bottom scoring boundary then the summed score increases by
exactly one and the ball ends the call at the arena centre (the reset
happens synchronously in the same call); otherwise the scores are
returned unchanged; and neither player's score ever decreases. -/
theorem ball_update_scoring_invariant (cfg : GameConfig) (b : Ball) (ps : List Paddle)
    (s : Nat × Nat) (t1 t2 : Nat) :
    (if scoringCross cfg b.integrate then
      ((Ball.update cfg b ps s t1 t2).2.1 + (Ball.update cfg b ps s t1 t2).2.2
          = s.1 + s.2 + 1) ∧
      (Ball.update cfg b ps s t1 t2).1.x = cfg.game_width / 2 ∧
      (Ball.update cfg b ps s t1 t2).1.y = cfg.game_height / 2
    else (Ball.update cfg b ps s t1 t2).2 = s) ∧
    s.1 ≤ (Ball.update cfg b ps s t1 t2).2.1 ∧
    s.2 ≤ (Ball.update cfg b ps s t1 t2).2.2 := by
  simp only [Ball.update, Ball.reset, scoringCross, foldl_paddleBounce_x,
    foldl_paddleBounce_y]
  simp only [apply_ite Ball.y, apply_ite Ball.radius, ite_self]
  split_ifs
  all_goals simp_all [Ball.integrate]
  all_goals try omega
  all_goals try (casesm* _ ∨ _)
  all_goals linarith

/-! ## C4: configuration loading -/

/-- The merge behaviour of `update_config` at one key, as a recursive
specification: a key absent from the defaults keeps its loaded binding,
a key absent from the loaded file is backfilled from the defaults, and
a key bound to dicts on both sides is merged recursively; any other key
present in the loaded file keeps its loaded value. -/
def mergeSpec : Option JVal → Option JVal → Option JVal
  | none, l => l
  | some d, none => some d
  | some (JVal.dict dv), some (JVal.dict dl) => some (JVal.dict (updateEntries dv dl))
  | some _, some l => some l

theorem lookupJ_eq_none (ds : List (String × JVal)) (key : String)
    (h : key ∉ ds.map Prod.fst) : lookupJ ds key = none := by
  induction ds with
  | nil => rfl
  | cons e rest ih =>
    obtain ⟨k, v⟩ := e
    simp only [List.map_cons, List.mem_cons] at h
    push_neg at h
    simp only [lookupJ, if_neg (Ne.symm h.1)]
    exact ih h.2

theorem lookupJ_append (ls : List (String × JVal)) (k0 : String) (v0 : JVal)
    (key : String) :
    lookupJ (ls ++ [(k0, v0)]) key =
      (match lookupJ ls key with
       | some v => some v
       | none => if k0 = key then some v0 else none) := by
  induction ls with
  | nil => rfl
  | cons e rest ih =>
    obtain ⟨k, v⟩ := e
    by_cases hk : k = key <;> simp [lookupJ, hk, ih]

theorem lookupJ_setJ (ls : List (String × JVal)) (k0 : String) (nv : JVal)
    (key : String) :
    lookupJ (setJ ls k0 nv) key =
      (if k0 = key ∧ (lookupJ ls k0).isSome then some nv else lookupJ ls key) := by
  induction ls with
  | nil => simp [setJ, lookupJ]
  | cons e rest ih =>
    obtain ⟨k, v⟩ := e
    by_cases h1 : k = k0 <;> by_cases h2 : k0 = key <;> simp_all [setJ, lookupJ]

/-- The central merge lemma: provided the default dict binds each key
once (true of `DEFAULT_CONFIG` and its sub-dicts), looking up any key
in `updateEntries defaults loaded` gives exactly the `mergeSpec` of the
two individual lookups. -/
theorem lookupJ_updateEntries (ds : List (String × JVal))
    (hnd : (ds.map Prod.fst).Nodup) (ls : List (String × JVal)) (key : String) :
    lookupJ (updateEntries ds ls) key = mergeSpec (lookupJ ds key) (lookupJ ls key) := by
  induction ds generalizing ls with
  | nil => cases h : lookupJ ls key <;> simp [updateEntries, lookupJ, mergeSpec, h]
  | cons e rest ih =>
    obtain ⟨k, v⟩ := e
    simp only [List.map_cons, List.nodup_cons] at hnd
    obtain ⟨hk, hnd⟩ := hnd
    rw [updateEntries]
    cases hls : lookupJ ls k with
    | none =>
      rw [ih hnd, lookupJ_append]
      by_cases hkey : k = key
      · subst hkey
        rw [lookupJ_eq_none rest k hk, hls]
        cases v <;> simp [lookupJ, mergeSpec]
      · simp only [lookupJ, if_neg hkey]
        cases h2 : lookupJ ls key <;> simp [mergeSpec, h2, hkey]
    | some old =>
      cases v with
      | dict dv =>
        cases old with
        | dict dl =>
          rw [ih hnd, lookupJ_setJ]
          by_cases hkey : k = key
          · subst hkey
            rw [lookupJ_eq_none rest k hk]
            simp [lookupJ, hls, mergeSpec]
          · simp [lookupJ, hkey, hls, mergeSpec]
        | num n =>
          rw [ih hnd]
          by_cases hkey : k = key
          · subst hkey
            rw [lookupJ_eq_none rest k hk]
            simp [lookupJ, hls, mergeSpec]
          · simp [lookupJ, hkey]
        | bool bv =>
          rw [ih hnd]
          by_cases hkey : k = key
          · subst hkey
            rw [lookupJ_eq_none rest k hk]
            simp [lookupJ, hls, mergeSpec]
          · simp [lookupJ, hkey]
      | num n =>
        rw [ih hnd]
        by_cases hkey : k = key
        · subst hkey
          rw [lookupJ_eq_none rest k hk]
          simp [lookupJ, hls, mergeSpec]
        · simp [lookupJ, hkey]
      | bool bv =>
        rw [ih hnd]
        by_cases hkey : k = key
        · subst hkey
          rw [lookupJ_eq_none rest k hk]
          simp [lookupJ, hls, mergeSpec]
        · simp [lookupJ, hkey]

/-- C4 counterexample: when `config.json` exists but its content fails
to parse, `load_config` does NOT write a fresh configuration file — the
generic exception handler only logs and returns the defaults; the write
happens only in the `FileNotFoundError` handler. -/
theorem load_config_malformed_no_write_counterexample :
    ¬ ((load_config FileState.malformed).2 = true) := by
  simp [load_config]

/-- C4 amended: on a parse failure `load_config` falls back to the
default configuration and returns it without raising, but does NOT
write a fresh configuration file (only a missing file triggers the
write of the defaults); when the file parses, no write happens either,
the loaded values are kept and only missing keys — recursively for
nested dicts — are backfilled from the defaults, per `mergeSpec`. -/
theorem load_config_recovery_and_merge :
    (load_config FileState.malformed = (JVal.dict DEFAULT_CONFIG, false)) ∧
    (load_config FileState.missing = (JVal.dict DEFAULT_CONFIG, true)) ∧
    (∀ (ls : List (String × JVal)) (key : String),
      lookupJ ((load_config (FileState.parsed ls)).1.entries) key =
        mergeSpec (lookupJ DEFAULT_CONFIG key) (lookupJ ls key)) ∧
    (∀ ls, (load_config (FileState.parsed ls)).2 = false) := by
  refine ⟨rfl, rfl, ?_, fun _ => rfl⟩
  intro ls key
  have hnd : (DEFAULT_CONFIG.map Prod.fst).Nodup := by decide
  simpa [load_config, update_config, JVal.entries] using
    lookupJ_updateEntries DEFAULT_CONFIG hnd ls key

/-! ## C10: options menu atomicity and bounds -/

theorem adjustStep_bounds (m : OptionsState) (k : Nat)
    (h1 : 1 ≤ m.aiDifficulty) (h2 : m.aiDifficulty ≤ 10)
    (h3 : 1 ≤ m.maxScore) (h4 : m.maxScore ≤ 20) :
    1 ≤ (adjustStep m k).aiDifficulty ∧ (adjustStep m k).aiDifficulty ≤ 10 ∧
    1 ≤ (adjustStep m k).maxScore ∧ (adjustStep m k).maxScore ≤ 20 := by
  unfold adjustStep
  split_ifs <;> simp_all <;> omega

/-- C10: for every event stream and every menu starting inside the
legal ranges, if `OptionsMenu.adjust` exits via a `QUIT` event then the
global configuration is unchanged and `config.json` is not written
(regardless of any in-menu increments or decrements), while if it exits
via the escape key it returns `True`, writes `config.json`, and the
committed configuration equals the menu's adjusted values, which lie
within 1–10 (AI difficulty) and 1–20 (max score). -/
theorem options_adjust_atomic (evs : List MenuEvent) (m : OptionsState) (cfg : ConfigState)
    (hd1 : 1 ≤ m.aiDifficulty) (hd2 : m.aiDifficulty ≤ 10)
    (hm1 : 1 ≤ m.maxScore) (hm2 : m.maxScore ≤ 20) :
    (match OptionsMenu.adjust evs m cfg with
     | some (AdjustOutcome.viaQuit _ menu2 cfg2 written) =>
         cfg2 = cfg ∧ written = false ∧
         1 ≤ menu2.aiDifficulty ∧ menu2.aiDifficulty ≤ 10 ∧
         1 ≤ menu2.maxScore ∧ menu2.maxScore ≤ 20
     | some (AdjustOutcome.viaEscape ret menu2 cfg2 written) =>
         ret = true ∧ written = true ∧
         cfg2.ai_difficulty = menu2.aiDifficulty ∧ cfg2.max_score = menu2.maxScore ∧
         1 ≤ cfg2.ai_difficulty ∧ cfg2.ai_difficulty ≤ 10 ∧
         1 ≤ cfg2.max_score ∧ cfg2.max_score ≤ 20
     | none => True) := by
  induction evs generalizing m with
  | nil => exact trivial
  | cons e rest ih =>
    cases e with
    | quit => exact ⟨rfl, rfl, hd1, hd2, hm1, hm2⟩
    | keydown k =>
      by_cases hk : k = K_ESCAPE
      · simp only [OptionsMenu.adjust, if_pos hk]
        exact ⟨trivial, trivial, trivial, trivial, hd1, hd2, hm1, hm2⟩
      · simp only [OptionsMenu.adjust, if_neg hk]
        obtain ⟨b1, b2, b3, b4⟩ := adjustStep_bounds m k hd1 hd2 hm1 hm2
        exact ih (adjustStep m k) b1 b2 b3 b4

/-- Witness for `options_adjust_atomic`: starting from the default
options (difficulty 5, max score 10), one right-arrow increment
followed by escape commits (6, 10) and writes the file. -/
theorem options_adjust_atomic_witness :
    (1 ≤ (OptionsState.mk 5 10 0 false).aiDifficulty) ∧
    ((OptionsState.mk 5 10 0 false).aiDifficulty ≤ 10) ∧
    (1 ≤ (OptionsState.mk 5 10 0 false).maxScore) ∧
    ((OptionsState.mk 5 10 0 false).maxScore ≤ 20) ∧
    (match OptionsMenu.adjust [MenuEvent.keydown K_RIGHT, MenuEvent.keydown K_ESCAPE]
        (OptionsState.mk 5 10 0 false) (ConfigState.mk 5 10) with
     | some (AdjustOutcome.viaQuit _ menu2 cfg2 written) =>
         cfg2 = ConfigState.mk 5 10 ∧ written = false ∧
         1 ≤ menu2.aiDifficulty ∧ menu2.aiDifficulty ≤ 10 ∧
         1 ≤ menu2.maxScore ∧ menu2.maxScore ≤ 20
     | some (AdjustOutcome.viaEscape ret menu2 cfg2 written) =>
         ret = true ∧ written = true ∧
         cfg2.ai_difficulty = menu2.aiDifficulty ∧ cfg2.max_score = menu2.maxScore ∧
         1 ≤ cfg2.ai_difficulty ∧ cfg2.ai_difficulty ≤ 10 ∧
         1 ≤ cfg2.max_score ∧ cfg2.max_score ≤ 20
     | none => True) :=
  ⟨by norm_num, by norm_num, by norm_num, by norm_num,
   options_adjust_atomic [MenuEvent.keydown K_RIGHT, MenuEvent.keydown K_ESCAPE]
     (OptionsState.mk 5 10 0 false) (ConfigState.mk 5 10)
     (by norm_num) (by norm_num) (by norm_num) (by norm_num)⟩
